/-
Verification of `read_element` from `src/example_package/utils.py` of the
talister/lincc_example repository.

The function is a format-dispatching reader: it classifies an identifier
string as an LCO packaged CSV, an SVO remote URL, or a local ASCII/FITS
file, parses it (delegating to external I/O collaborators), applies a
wavelength-unit inference heuristic and a throughput-percentage heuristic,
augments the header with provenance, and wraps the result in one of three
spectral-object variants.

Modelling choices:
* Numeric values are rationals; astropy `Quantity` arrays become a unit tag
  plus a list of rationals (`QList`).
* The external collaborators (the synphot `specio` readers, the packaged
  CSV reader, `os.path` and the package-resource locator) are a record of
  functions (`Env`); `read_element` is parametric in it.  Fallible readers
  return `Except PyErr`, with `PyErr.keyError` standing for Python's
  `KeyError` (the only exception class `read_element` catches).
* Python string operations `.upper()`, `.lower()`, `in`, `.endswith` are
  modelled over the character list of the string; `Char.toUpper/toLower`
  implement the same basic-latin case mapping that the comparisons in
  `read_element` exercise.
* `numpy` mean of an empty array is NaN, and `NaN > 1.5` is `False`; the
  rational `mean` below returns `0` on the empty list, so the `> 3/2`
  comparison takes the same branch.
* `read_element` is split into `localParsed` (lines 55-76), `localTail`
  (lines 77-88 plus the common tail) and `buildElement` (lines 89-113),
  each mirroring a contiguous block of the source.
-/
import Mathlib

namespace LinccExample

/-- Units appearing in `utils.py`: `u.nm`, `u.micron`, `u.AA`,
`units.THROUGHPUT`, `units.PHOTLAM`, and the ESO radiance unit
`u.photon / u.s / u.m**2 / u.um`; `other` covers any further unit a caller
or a file header could supply. -/
inductive SUnit where
  | nm
  | micron
  | angstrom
  | throughput
  | photlam
  | esoRadiance
  | other (name : String)
deriving DecidableEq, Repr

/-- A FITS/ASCII header, modelled as an insertion-ordered key-value list
(the shape a Python `dict` of strings takes). -/
abbrev Header := List (String × String)

/-- `h[k] = v` on a Python dict: replace the value at an existing key,
else append the new binding. -/
def headerSet : Header → String → String → Header
  | [], k, v => [(k, v)]
  | p :: rest, k, v =>
      if p.1 = k then (k, v) :: rest else p :: headerSet rest k v

/-- `h.get(k)` on a Python dict. -/
def headerGet : Header → String → Option String
  | [], _ => none
  | p :: rest, k => if p.1 = k then some p.2 else headerGet rest k

/-- An astropy `Quantity` array: one unit for a list of numeric values. -/
structure QList where
  unit : SUnit
  values : List ℚ
deriving DecidableEq, Repr

/-- The `(header, wavelengths, throughput)` triple every `specio` reader
returns. -/
structure SpecTable where
  header : Header
  wavelengths : QList
  throughput : QList
deriving DecidableEq, Repr

/-- Python exceptions relevant to `read_element`: `KeyError` (the only
class it catches), `IndexError` (raised by `wavelengths[0]` on an empty
array), and any other error (`OSError`, parse failures, ...). -/
inductive PyErr where
  | keyError
  | indexError
  | osError (msg : String)
  | otherError (msg : String)
deriving DecidableEq, Repr

/-- The three output representations: `SourceSpectrum`, `SpectralElement`,
`BaseUnitlessSpectrum`. -/
inductive Variant where
  | sourceSpectrum
  | spectralElement
  | baseUnitlessSpectrum
deriving DecidableEq, Repr

/-- The constructed spectral object, recording the variant chosen and the
arguments `read_element` passes to the external `Empirical1D` constructor:
`points`, `lookup_table` and the `meta` header. -/
structure SpectralObject where
  variant : Variant
  points : QList
  lookup_table : QList
  header : Header
deriving DecidableEq, Repr

/-- The external collaborators of `read_element`, in the order they appear
in `utils.py`:
`os.path.expandvars`, `os.path.exists`,
`pkg_resources.files("example_package.data").joinpath`,
`read_lco_filter_csv` (modelled from the spec: the packaged LCO
scanned-element CSV parser is called at line 49 of `utils.py` but its
definition is not among the sources; per the spec it yields a
header/wavelength/throughput table or fails),
`specio.read_remote_spec`, `specio.read_spec` (arguments: path, wave_col,
flux_col, wave_unit, flux_unit; the units recorded in the file may
override the requested ones), and `specio.read_ascii_spec` (arguments:
path, wave_unit, flux_unit). -/
structure Env where
  expandvars : String → String
  pathExists : String → Bool
  pkgDataPath : String → String
  readLcoCsv : String → Except PyErr SpecTable
  readRemoteSpec : String → SUnit → SUnit → Except PyErr SpecTable
  readSpec : String → String → String → SUnit → SUnit → Except PyErr SpecTable
  readAsciiSpec : String → SUnit → SUnit → Except PyErr SpecTable

instance {ε α : Type} [DecidableEq ε] [DecidableEq α] : DecidableEq (Except ε α) := fun x y =>
  match x, y with
  | Except.ok a, Except.ok b =>
      if h : a = b then isTrue (by rw [h]) else isFalse (fun hc => by cases hc; exact h rfl)
  | Except.ok _, Except.error _ => isFalse (fun hc => by cases hc)
  | Except.error _, Except.ok _ => isFalse (fun hc => by cases hc)
  | Except.error e, Except.error e' =>
      if h : e = e' then isTrue (by rw [h]) else isFalse (fun hc => by cases hc; exact h rfl)

/-- Python `s.lower()` (basic-latin case mapping, as in the filename and
element-type comparisons of `read_element`). -/
def strLower (s : String) : String :=
  String.mk (s.data.map Char.toLower)

/-- Python `s.upper()`. -/
def strUpper (s : String) : String :=
  String.mk (s.data.map Char.toUpper)

/-- Python `pat in s` (substring containment). -/
def strContains (s pat : String) : Bool :=
  decide (pat.data <:+: s.data)

/-- Python `s.endswith(pat)`. -/
def strEndsWith (s pat : String) : Bool :=
  decide (pat.data <:+ s.data)

/-- `numpy` array mean (`0` on the empty list; the caller only compares
the mean with `1.5`, and on the empty array NaN makes that comparison
false, exactly as `0` does). -/
def mean (l : List ℚ) : ℚ :=
  l.sum / (l.length : ℚ)

/-- Lines 89-113 of `utils.py`, common to all three classification
branches: set `header["source"]` and `header["filename"]`, then construct
the variant selected by `element_type`, substituting a photon-flux unit
for the placeholder `units.THROUGHPUT` on the `SourceSpectrum` path
(the ESO radiance unit for `"radiance"`, PHOTLAM otherwise). -/
def buildElement (header : Header) (wavelengths throughput : QList)
    (source filename elementType : String) (flux_units : SUnit) : SpectralObject :=
  let header := headerSet (headerSet header "source" source) "filename" filename
  if elementType = "spectrum" ∨ elementType = "radiance" then
    let throughput :=
      if flux_units = SUnit.throughput then
        if elementType = "radiance" then QList.mk SUnit.esoRadiance throughput.values
        else QList.mk SUnit.photlam throughput.values
      else throughput
    SpectralObject.mk Variant.sourceSpectrum wavelengths throughput header
  else if elementType = "spectral_element" then
    SpectralObject.mk Variant.spectralElement wavelengths throughput header
  else
    SpectralObject.mk Variant.baseUnitlessSpectrum wavelengths throughput header

/-- Lines 55-76 of `utils.py`: local-file path resolution (the
environment-variable-expanded identifier if a file exists there, else the
package data directory) followed by the FITS/ASCII dispatch.  The FITS
branch first reads columns `lam` / `trans` (`flux` for `radiance`) in nm;
a `KeyError` — and only a `KeyError` — triggers the single ESO-SM01
fallback read with columns `lam` / `flux` in micron. -/
def localParsed (env : Env) (filename elementType : String)
    (wave_units flux_units : SUnit) : Except PyErr SpecTable :=
  let p := env.expandvars filename
  let file_path := if env.pathExists p = true then p else env.pkgDataPath filename
  if strEndsWith (strLower filename) "fits" = true ∨ strEndsWith (strLower filename) "fit" = true then
    let flux_col := if elementType = "radiance" then "flux" else "trans"
    match env.readSpec file_path "lam" flux_col SUnit.nm flux_units with
    | Except.ok t => Except.ok t
    | Except.error PyErr.keyError =>
        env.readSpec file_path "lam" "flux" SUnit.micron flux_units
    | Except.error e => Except.error e
  else
    env.readAsciiSpec file_path wave_units flux_units

/-- Lines 77-88 of `utils.py` followed by the common tail: the
wavelength-unit inference heuristic (only when the caller kept the
default `u.nm`), the throughput-percentage heuristic (only for element
types other than `"spectrum"` / `"radiance"`, when the mean exceeds 1.5:
divide the values by 100 and record the `notes` entry), then the common
construction.  Python's short-circuit `and` at line 77 indexes
`wavelengths[0]` before testing `wave_units`, so an empty wavelength
table raises `IndexError` first. -/
def localTail (t : SpecTable) (filename elementType : String)
    (wave_units flux_units : SUnit) : Except PyErr SpectralObject :=
  match t.wavelengths.values with
  | [] => Except.error PyErr.indexError
  | v0 :: _ =>
    let wavelengths :=
      if v0 < 100 ∧ wave_units = SUnit.nm then QList.mk SUnit.micron t.wavelengths.values
      else if v0 > 3000 ∧ wave_units = SUnit.nm then QList.mk SUnit.angstrom t.wavelengths.values
      else t.wavelengths
    let header :=
      if elementType ≠ "spectrum" ∧ elementType ≠ "radiance" ∧ mean t.throughput.values > 3/2 then
        headerSet t.header "notes" "Divided by 100.0 to convert from percentage"
      else t.header
    let throughput :=
      if elementType ≠ "spectrum" ∧ elementType ≠ "radiance" ∧ mean t.throughput.values > 3/2 then
        QList.mk t.throughput.unit (t.throughput.values.map (fun x => x / 100))
      else t.throughput
    Except.ok (buildElement header wavelengths throughput
      "local file" filename elementType flux_units)

/-- `read_element(filtername_or_filename, element_type="element",
wave_units=u.nm, flux_units=units.THROUGHPUT)` from `utils.py`.
The `Conf` mapping lookup at lines 40-45 is commented out in the source
(`filename` is always `None` there), so the identifier passes through
unchanged. -/
def read_element (env : Env) (filtername_or_filename element_type : String)
    (wave_units flux_units : SUnit) : Except PyErr SpectralObject :=
  let elementType := strLower element_type
  let filename := filtername_or_filename
  if strContains (strUpper filename) "LCO_" = true ∧ strContains (strLower filename) ".csv" = true then
    match env.readLcoCsv (env.pkgDataPath (env.expandvars filename)) with
    | Except.error e => Except.error e
    | Except.ok t =>
        Except.ok (buildElement t.header t.wavelengths t.throughput
          "LCO iLab format" filename elementType flux_units)
  else if strContains (strLower filename) "http://svo" = true then
    match env.readRemoteSpec filename SUnit.angstrom SUnit.throughput with
    | Except.error e => Except.error e
    | Except.ok t =>
        Except.ok (buildElement t.header t.wavelengths t.throughput
          "SVO filter service" filename elementType flux_units)
  else
    match localParsed env filename elementType wave_units flux_units with
    | Except.error e => Except.error e
    | Except.ok t => localTail t filename elementType wave_units flux_units

/-- The classification rule in the words of the spec: first match wins,
matching case-insensitively on the identifier (containment of the
lowercased pattern in the lowercased identifier). -/
def claimedSource (f : String) : String :=
  if strContains (strLower f) "lco_" = true ∧ strContains (strLower f) ".csv" = true then
    "LCO iLab format"
  else if strContains (strLower f) "http://svo" = true then
    "SVO filter service"
  else
    "local file"

/-- `env` with its ASCII reader replaced (used to state that a FITS-routed
read never consults the ASCII parser). -/
def setAsciiReader (env : Env) (g : String → SUnit → SUnit → Except PyErr SpecTable) : Env :=
  ⟨env.expandvars, env.pathExists, env.pkgDataPath, env.readLcoCsv, env.readRemoteSpec,
   env.readSpec, g⟩

/-- `env` with its FITS reader replaced (used to state that an ASCII-routed
read never consults the FITS parser). -/
def setFitsReader (env : Env)
    (g : String → String → String → SUnit → SUnit → Except PyErr SpecTable) : Env :=
  ⟨env.expandvars, env.pathExists, env.pkgDataPath, env.readLcoCsv, env.readRemoteSpec,
   g, env.readAsciiSpec⟩

/-- Split a character list at a separator (the groups between separators,
in order; `n + 1` groups for `n` separators). -/
def splitChar (sep : Char) : List Char → List (List Char)
  | [] => [[]]
  | c :: rest =>
    match splitChar sep rest with
    | [] => [[]]
    | grp :: grps => if c = sep then [] :: grp :: grps else (c :: grp) :: grps

/-- Digits-only parse of a natural number. -/
def parseNat (cs : List Char) : Option Nat :=
  if cs.isEmpty then none
  else cs.foldl (fun acc c =>
    match acc with
    | none => none
    | some n => if c.isDigit then some (n * 10 + (c.toNat - 48)) else none) (some 0)

/-- Parse an unsigned decimal literal such as `300` or `0.5` as a
rational. -/
def parseDec (cs : List Char) : Option ℚ :=
  match splitChar '.' cs with
  | [w] => (parseNat w).map (fun n => (n : ℚ))
  | [w, fr] =>
    match parseNat w, parseNat fr with
    | some n, some m => some ((n : ℚ) + (m : ℚ) / ((10 ^ fr.length : ℕ) : ℚ))
    | _, _ => none
  | _ => none

/-- One line of a two-column ASCII table: `none` for a malformed line,
`some none` for a blank line to skip, `some (some (w, t))` for a data
row. -/
def parseRow (line : List Char) : Option (Option (ℚ × ℚ)) :=
  match (splitChar ' ' line).filter (fun g => !g.isEmpty) with
  | [] => some none
  | [a, b] =>
    match parseDec a, parseDec b with
    | some x, some y => some (some (x, y))
    | _, _ => none
  | _ => none

/-- Modelled from the spec: the external ASCII reader
`synphot.specio.read_ascii_spec` (out of scope of the sources), described
in the spec as parsing a whitespace two-column wavelength/throughput
table and attaching the caller-specified units. -/
def parseAsciiTable (content : String) (wave_unit flux_unit : SUnit) : Except PyErr SpecTable :=
  match (splitChar '\n' content.data).mapM parseRow with
  | none => Except.error (PyErr.otherError "malformed ASCII table")
  | some rows =>
    let prs := rows.filterMap id
    Except.ok ⟨[], QList.mk wave_unit (prs.map Prod.fst), QList.mk flux_unit (prs.map Prod.snd)⟩

/-- A concrete environment for witnesses: every path exists, the LCO,
remote and ASCII readers succeed with small tables, and the FITS reader
only knows the ESO-SM01 schema (`flux` column, micron wavelengths), so a
primary FITS read raises `KeyError` and the fallback read succeeds. -/
def envW : Env :=
  ⟨id, fun _ => true, fun s => String.append "pkg/" s,
   fun _ => Except.ok ⟨[], QList.mk SUnit.nm [400, 500], QList.mk SUnit.throughput [1/2, 3/5]⟩,
   fun _ _ _ =>
     Except.ok ⟨[], QList.mk SUnit.angstrom [4000, 5000], QList.mk SUnit.throughput [1/4, 1/2]⟩,
   fun _ _ fc wu _ =>
     if fc = "flux" ∧ wu = SUnit.micron then
       Except.ok ⟨[], QList.mk SUnit.micron [1/2, 3/5], QList.mk SUnit.throughput [1, 2]⟩
     else Except.error PyErr.keyError,
   fun _ wu fu => Except.ok ⟨[], QList.mk wu [300, 310], QList.mk fu [1/2, 2/5]⟩⟩

/-- A concrete environment in which every reader fails with an `OSError`
and no path exists (for the error-propagation witnesses). -/
def envErr : Env :=
  ⟨id, fun _ => false, fun s => String.append "pkg/" s,
   fun _ => Except.error (PyErr.osError "ENOENT"),
   fun _ _ _ => Except.error (PyErr.osError "ENOENT"),
   fun _ _ _ _ _ => Except.error (PyErr.osError "ENOENT"),
   fun _ _ _ => Except.error (PyErr.osError "ENOENT")⟩

/-- The object `read_element envW "http://svo/x" "element" nm throughput`
returns. -/
def objSvoW : SpectralObject :=
  ⟨Variant.baseUnitlessSpectrum, QList.mk SUnit.angstrom [4000, 5000],
   QList.mk SUnit.throughput [1/4, 1/2],
   [("source", "SVO filter service"), ("filename", "http://svo/x")]⟩

/-- The object `read_element envW "local.txt" "element" nm throughput`
returns. -/
def objLocalW : SpectralObject :=
  ⟨Variant.baseUnitlessSpectrum, QList.mk SUnit.nm [300, 310],
   QList.mk SUnit.throughput [1/2, 2/5],
   [("source", "local file"), ("filename", "local.txt")]⟩

/-- The object `read_element envW "local.txt" "spectrum" nm throughput`
returns. -/
def objSpectrumW : SpectralObject :=
  ⟨Variant.sourceSpectrum, QList.mk SUnit.nm [300, 310],
   QList.mk SUnit.photlam [1/2, 2/5],
   [("source", "local file"), ("filename", "local.txt")]⟩

/-- Environment refuting C1 as stated: the local FITS file parses only
under the ESO-SM01 fallback schema, in micron, with a first wavelength
value inside `[100, 3000]`. -/
def envC1 : Env :=
  ⟨id, fun _ => true, fun s => String.append "pkg/" s,
   fun _ => Except.error (PyErr.osError "unused"),
   fun _ _ _ => Except.error (PyErr.osError "unused"),
   fun _ _ fc wu _ =>
     if fc = "flux" ∧ wu = SUnit.micron then
       Except.ok ⟨[], QList.mk SUnit.micron [200, 300], QList.mk SUnit.throughput [1/2, 1/2]⟩
     else Except.error PyErr.keyError,
   fun _ _ _ => Except.error (PyErr.osError "unused")⟩

/-- The object `read_element envC1 "sky.fits" "element" nm throughput`
returns. -/
def objC1 : SpectralObject :=
  ⟨Variant.baseUnitlessSpectrum, QList.mk SUnit.micron [200, 300],
   QList.mk SUnit.throughput [1/2, 1/2],
   [("source", "local file"), ("filename", "sky.fits")]⟩

/-- Environment refuting C2 as stated: an SVO remote fetch whose
throughput table has mean 2, above the 1.5 threshold. -/
def envC2 : Env :=
  ⟨id, fun _ => true, fun s => String.append "pkg/" s,
   fun _ => Except.error (PyErr.osError "unused"),
   fun _ _ _ =>
     Except.ok ⟨[], QList.mk SUnit.angstrom [4000, 5000], QList.mk SUnit.throughput [2, 2]⟩,
   fun _ _ _ _ _ => Except.error (PyErr.osError "unused"),
   fun _ _ _ => Except.error (PyErr.osError "unused")⟩

/-- The object `read_element envC2 "http://svo/x" "element" nm throughput`
returns. -/
def objC2 : SpectralObject :=
  ⟨Variant.baseUnitlessSpectrum, QList.mk SUnit.angstrom [4000, 5000],
   QList.mk SUnit.throughput [2, 2],
   [("source", "SVO filter service"), ("filename", "http://svo/x")]⟩

/-- Environment for the C7 round-trip: the file `test.dat` holds the
two-row ASCII content `"300 0.5\n310 0.4\n"`, parsed by the modelled
external ASCII reader; nothing else is readable. -/
def envC7 : Env :=
  ⟨id, fun p => decide (p = "test.dat"), fun s => String.append "pkg/" s,
   fun _ => Except.error (PyErr.osError "unused"),
   fun _ _ _ => Except.error (PyErr.osError "unused"),
   fun _ _ _ _ _ => Except.error (PyErr.osError "unused"),
   fun p wu fu =>
     if p = "test.dat" then parseAsciiTable "300 0.5\n310 0.4\n" wu fu
     else Except.error (PyErr.osError "missing")⟩

/-- The object `read_element envC7 "test.dat" "element" nm throughput`
returns. -/
def objC7 : SpectralObject :=
  ⟨Variant.baseUnitlessSpectrum, QList.mk SUnit.nm [300, 310],
   QList.mk SUnit.throughput [1/2, 2/5],
   [("source", "local file"), ("filename", "test.dat")]⟩

/-! ### Lemmas: the basic-latin case mapping -/

theorem char_toNat_ofNat_of_valid {n : Nat} (h : n.isValidChar) : (Char.ofNat n).toNat = n := by
  rw [Char.ofNat, dif_pos h]
  rfl

theorem char_toLower_toUpper (c : Char) : c.toUpper.toLower = c.toLower := by
  simp only [Char.toUpper, Char.toLower]
  by_cases h : 97 ≤ c.toNat ∧ c.toNat ≤ 122
  · rw [if_pos h]
    have hv : (c.toNat - 32).isValidChar := Or.inl (by omega)
    rw [char_toNat_ofNat_of_valid hv]
    rw [if_pos (by omega : 65 ≤ c.toNat - 32 ∧ c.toNat - 32 ≤ 90)]
    have he : c.toNat - 32 + 32 = c.toNat := by omega
    rw [he, Char.ofNat_toNat, if_neg (by omega)]
  · rw [if_neg h]

theorem char_toUpper_toLower (c : Char) : c.toLower.toUpper = c.toUpper := by
  simp only [Char.toUpper, Char.toLower]
  by_cases h : 65 ≤ c.toNat ∧ c.toNat ≤ 90
  · rw [if_pos h]
    have hv : (c.toNat + 32).isValidChar := Or.inl (by omega)
    rw [char_toNat_ofNat_of_valid hv]
    rw [if_pos (by omega : 97 ≤ c.toNat + 32 ∧ c.toNat + 32 ≤ 122)]
    have he : c.toNat + 32 - 32 = c.toNat := by omega
    rw [he, Char.ofNat_toNat, if_neg (by omega)]
  · rw [if_neg h]

theorem char_toLower_toLower (c : Char) : c.toLower.toLower = c.toLower := by
  simp only [Char.toLower]
  by_cases h : 65 ≤ c.toNat ∧ c.toNat ≤ 90
  · rw [if_pos h]
    have hv : (c.toNat + 32).isValidChar := Or.inl (by omega)
    rw [char_toNat_ofNat_of_valid hv]
    rw [if_neg (by omega)]
  · rw [if_neg h, if_neg h]

theorem strLower_strLower (s : String) : strLower (strLower s) = strLower s := by
  simp only [strLower, List.map_map]
  rw [(funext char_toLower_toLower : Char.toLower ∘ Char.toLower = Char.toLower)]

/-- Containment of a pattern in the uppercased string coincides with
containment of the lowercased pattern in the lowercased string: Python's
`PAT in s.upper()` and `pat in s.lower()` agree for case-mapped pattern
pairs such as `"LCO_"` / `"lco_"`. -/
theorem strContains_upper_eq_lower (f p q : String)
    (hq : q.data = p.data.map Char.toLower) (hp : p.data = q.data.map Char.toUpper) :
    strContains (strUpper f) p = strContains (strLower f) q := by
  simp only [strContains, strUpper, strLower]
  rw [decide_eq_decide]
  constructor
  · intro h
    have h2 := h.map Char.toLower
    rw [List.map_map,
      (funext char_toLower_toUpper : Char.toLower ∘ Char.toUpper = Char.toLower)] at h2
    rw [hq]
    exact h2
  · intro h
    have h2 := h.map Char.toUpper
    rw [List.map_map,
      (funext char_toUpper_toLower : Char.toUpper ∘ Char.toLower = Char.toUpper)] at h2
    rw [hp]
    exact h2

/-- The code's LCO test (`"LCO_" in filename.upper() and ".csv" in
filename.lower()`) agrees with the spec's case-insensitive reading. -/
theorem lco_cond_eq (f : String) :
    strContains (strUpper f) "LCO_" = strContains (strLower f) "lco_" :=
  strContains_upper_eq_lower f "LCO_" "lco_" (by decide) (by decide)

/-! ### Lemmas: the header dictionary -/

theorem headerGet_headerSet_self (h : Header) (k v : String) :
    headerGet (headerSet h k v) k = some v := by
  induction h with
  | nil => simp [headerSet, headerGet]
  | cons p rest ih =>
      by_cases hp : p.1 = k
      · simp [headerSet, headerGet, hp]
      · simp [headerSet, headerGet, hp, ih]

theorem headerGet_headerSet_ne (h : Header) (k v k' : String) (hne : k' ≠ k) :
    headerGet (headerSet h k v) k' = headerGet h k' := by
  induction h with
  | nil =>
      simp only [headerSet, headerGet]
      rw [if_neg (fun hc => hne hc.symm)]
  | cons p rest ih =>
      by_cases hp : p.1 = k
      · simp only [headerSet, if_pos hp, headerGet]
        rw [if_neg (fun hc => hne hc.symm), if_neg (by rw [hp]; exact fun hc => hne hc.symm)]
      · simp only [headerSet, if_neg hp, headerGet]
        by_cases hp' : p.1 = k'
        · rw [if_pos hp', if_pos hp']
        · rw [if_neg hp', if_neg hp']
          exact ih

/-! ### Lemmas: the common construction tail -/

theorem buildElement_points (h : Header) (w t : QList) (s fn et : String) (fu : SUnit) :
    (buildElement h w t s fn et fu).points = w := by
  unfold buildElement
  split
  · rfl
  · split <;> rfl

theorem buildElement_header (h : Header) (w t : QList) (s fn et : String) (fu : SUnit) :
    (buildElement h w t s fn et fu).header = headerSet (headerSet h "source" s) "filename" fn := by
  unfold buildElement
  split
  · rfl
  · split <;> rfl

theorem buildElement_lookup_of_element (h : Header) (w t : QList) (s fn et : String) (fu : SUnit)
    (h1 : et ≠ "spectrum") (h2 : et ≠ "radiance") :
    (buildElement h w t s fn et fu).lookup_table = t := by
  unfold buildElement
  rw [if_neg (by rintro (hc | hc) <;> [exact h1 hc; exact h2 hc])]
  split <;> rfl

theorem buildElement_variant_of_spectrum (h : Header) (w t : QList) (s fn et : String) (fu : SUnit)
    (het : et = "spectrum" ∨ et = "radiance") :
    (buildElement h w t s fn et fu).variant = Variant.sourceSpectrum := by
  unfold buildElement
  rw [if_pos het]

theorem buildElement_lookup_of_spectrum (h : Header) (w t : QList) (s fn et : String)
    (het : et = "spectrum" ∨ et = "radiance") :
    (buildElement h w t s fn et SUnit.throughput).lookup_table =
      QList.mk (if et = "radiance" then SUnit.esoRadiance else SUnit.photlam) t.values := by
  simp only [buildElement, if_pos het]
  by_cases hr : et = "radiance"
  · simp [hr]
  · simp [hr]

theorem buildElement_variant_of_other (h : Header) (w t : QList) (s fn et : String) (fu : SUnit)
    (h1 : et ≠ "spectrum") (h2 : et ≠ "radiance") (h3 : et ≠ "spectral_element") :
    (buildElement h w t s fn et fu).variant = Variant.baseUnitlessSpectrum := by
  unfold buildElement
  rw [if_neg (by rintro (hc | hc) <;> [exact h1 hc; exact h2 hc]), if_neg h3]

/-! ### Lemmas: branch characterisation of `read_element` -/

/-- On a locally-classified identifier, `read_element` is the local parse
followed by `localTail`. -/
theorem read_element_local (env : Env) (f et : String) (wu fu : SUnit)
    (hlco : ¬(strContains (strUpper f) "LCO_" = true ∧ strContains (strLower f) ".csv" = true))
    (hsvo : ¬ strContains (strLower f) "http://svo" = true) :
    read_element env f et wu fu
      = match localParsed env f (strLower et) wu fu with
        | Except.error e => Except.error e
        | Except.ok t => localTail t f (strLower et) wu fu := by
  unfold read_element
  rw [if_neg hlco, if_neg hsvo]

/-- `localTail` on a nonempty wavelength table, with the two heuristics
spelled out. -/
theorem localTail_eq (t : SpecTable) (v0 : ℚ) (vs : List ℚ)
    (hvals : t.wavelengths.values = v0 :: vs) (fn et : String) (wu fu : SUnit) :
    localTail t fn et wu fu = Except.ok (buildElement
      (if et ≠ "spectrum" ∧ et ≠ "radiance" ∧ mean t.throughput.values > 3/2 then
        headerSet t.header "notes" "Divided by 100.0 to convert from percentage"
      else t.header)
      (if v0 < 100 ∧ wu = SUnit.nm then QList.mk SUnit.micron t.wavelengths.values
      else if v0 > 3000 ∧ wu = SUnit.nm then QList.mk SUnit.angstrom t.wavelengths.values
      else t.wavelengths)
      (if et ≠ "spectrum" ∧ et ≠ "radiance" ∧ mean t.throughput.values > 3/2 then
        QList.mk t.throughput.unit (t.throughput.values.map (fun x => x / 100))
      else t.throughput)
      "local file" fn et fu) := by
  obtain ⟨hdr, ⟨wu0, wv⟩, thr⟩ := t
  have hv : wv = v0 :: vs := hvals
  subst hv
  rfl

/-- The three values `claimedSource` can take. -/
theorem claimedSource_cases (f : String) :
    claimedSource f = "LCO iLab format" ∨ claimedSource f = "SVO filter service"
      ∨ claimedSource f = "local file" := by
  unfold claimedSource
  split
  · exact Or.inl rfl
  · split
    · exact Or.inr (Or.inl rfl)
    · exact Or.inr (Or.inr rfl)

/-- Every successful `read_element` call returns an object built by the
common tail `buildElement`, with the source label of the classification
branch taken, the identifier itself, the lowercased element type and the
caller's flux units. -/
theorem read_element_ok_shape (env : Env) (f et : String) (wu fu : SUnit)
    (obj : SpectralObject) (hok : read_element env f et wu fu = Except.ok obj) :
    ∃ h w t, obj = buildElement h w t (claimedSource f) f (strLower et) fu := by
  unfold read_element at hok
  by_cases hlco : strContains (strUpper f) "LCO_" = true ∧ strContains (strLower f) ".csv" = true
  · rw [if_pos hlco] at hok
    have hcl : claimedSource f = "LCO iLab format" := by
      unfold claimedSource
      rw [if_pos (by rw [← lco_cond_eq]; exact hlco)]
    rw [hcl]
    split at hok
    · cases hok
    · exact ⟨_, _, _, (Except.ok.inj hok).symm⟩
  · rw [if_neg hlco] at hok
    by_cases hsvo : strContains (strLower f) "http://svo" = true
    · rw [if_pos hsvo] at hok
      have hcl : claimedSource f = "SVO filter service" := by
        unfold claimedSource
        rw [if_neg (by rw [← lco_cond_eq]; exact hlco), if_pos hsvo]
      rw [hcl]
      split at hok
      · cases hok
      · exact ⟨_, _, _, (Except.ok.inj hok).symm⟩
    · rw [if_neg hsvo] at hok
      have hcl : claimedSource f = "local file" := by
        unfold claimedSource
        rw [if_neg (by rw [← lco_cond_eq]; exact hlco), if_neg hsvo]
      rw [hcl]
      split at hok
      · cases hok
      · unfold localTail at hok
        split at hok
        · cases hok
        · exact ⟨_, _, _, (Except.ok.inj hok).symm⟩

/-- On success, the header's `source` entry is the label of the branch
`claimedSource` selects. -/
theorem read_element_source_entry (env : Env) (f et : String) (wu fu : SUnit)
    (obj : SpectralObject) (hok : read_element env f et wu fu = Except.ok obj) :
    headerGet obj.header "source" = some (claimedSource f) := by
  obtain ⟨h, w, t, hobj⟩ := read_element_ok_shape env f et wu fu obj hok
  rw [hobj, buildElement_header,
    headerGet_headerSet_ne _ _ _ _ (by decide : ("source" : String) ≠ "filename"),
    headerGet_headerSet_self]

/-! ### Claim C1 -/

unseal Rat.mul Rat.inv Rat.add in
/-- C1 as stated is false: a local-file read with default nm wave units
whose first parsed wavelength value is 200 — inside `[100, 3000]` — can
return wavelengths in micron, not nm: the ESO-SM01 FITS fallback parses
in micron and the middle branch of the heuristic leaves that unit
untouched. -/
theorem c1_counterexample :
    (100 : ℚ) ≤ 200 ∧ (200 : ℚ) ≤ 3000
    ∧ read_element envC1 "sky.fits" "element" SUnit.nm SUnit.throughput = Except.ok objC1
    ∧ objC1.points.values = [200, 300]
    ∧ objC1.points.unit = SUnit.micron
    ∧ objC1.points.unit ≠ SUnit.nm := by decide

/-- C1 (amended): for every local-file read with `wave_units` left at the
default nm and a nonempty parsed wavelength sequence with first value
`v0`: if `v0 < 100` the returned wavelengths keep their numeric values
and carry unit micron; if `v0 > 3000` they keep their values and carry
unit angstrom; otherwise the wavelengths are returned unchanged, in the
unit they were parsed with (nm, except micron on the ESO-SM01 FITS
fallback). -/
theorem c1_unit_heuristic (env : Env) (f et : String) (fu : SUnit) (t : SpecTable)
    (v0 : ℚ) (vs : List ℚ)
    (hlco : ¬(strContains (strUpper f) "LCO_" = true ∧ strContains (strLower f) ".csv" = true))
    (hsvo : ¬ strContains (strLower f) "http://svo" = true)
    (hparse : localParsed env f (strLower et) SUnit.nm fu = Except.ok t)
    (hvals : t.wavelengths.values = v0 :: vs) :
    (read_element env f et SUnit.nm fu).map SpectralObject.points
      = Except.ok (if v0 < 100 then QList.mk SUnit.micron t.wavelengths.values
          else if v0 > 3000 then QList.mk SUnit.angstrom t.wavelengths.values
          else t.wavelengths) := by
  rw [read_element_local env f et SUnit.nm fu hlco hsvo]
  simp only [hparse]
  rw [localTail_eq t v0 vs hvals f (strLower et) SUnit.nm fu]
  simp only [Except.map, buildElement_points, and_true]

unseal Rat.mul Rat.inv Rat.add in
/-- Witness for the amended C1 at the ESO-SM01-style FITS file of `envW`
(first parsed wavelength value 1/2 micron, below 100). -/
theorem c1_unit_heuristic_witness :
    (read_element envW "sky.fits" "element" SUnit.nm SUnit.throughput).map SpectralObject.points
      = Except.ok (QList.mk SUnit.micron [1/2, 3/5]) := by
  have h := c1_unit_heuristic envW "sky.fits" "element" SUnit.throughput
    ⟨[], QList.mk SUnit.micron [1/2, 3/5], QList.mk SUnit.throughput [1, 2]⟩ (1/2) [3/5]
    (by decide) (by decide) (by decide) (by decide)
  rw [h, if_pos (by decide)]

/-! ### Claim C2 -/

unseal Rat.mul Rat.inv Rat.add in
/-- C2 as stated is false: the percentage heuristic lives inside the
local-file branch only, so an SVO fetch with `element_type = "element"`
and mean throughput 2 > 1.5 returns its values unscaled and adds no
`notes` entry. -/
theorem c2_counterexample :
    mean [2, 2] > 3/2
    ∧ read_element envC2 "http://svo/x" "element" SUnit.nm SUnit.throughput = Except.ok objC2
    ∧ objC2.lookup_table.values = [2, 2]
    ∧ headerGet objC2.header "notes" = none
    ∧ ¬ ((2 : ℚ) = 2 / 100) := by decide

/-- C2 (amended): for every local-file read with an element type whose
lowercased form is neither `"spectrum"` nor `"radiance"`: if the mean of
the parsed throughput values exceeds 1.5, every returned throughput value
is the original divided by 100 and the header gains the percentage
`notes` entry; otherwise the values are returned unscaled and the `notes`
entry is exactly the parsed one. -/
theorem c2_throughput_heuristic (env : Env) (f et : String) (wu fu : SUnit) (t : SpecTable)
    (v0 : ℚ) (vs : List ℚ)
    (hlco : ¬(strContains (strUpper f) "LCO_" = true ∧ strContains (strLower f) ".csv" = true))
    (hsvo : ¬ strContains (strLower f) "http://svo" = true)
    (hparse : localParsed env f (strLower et) wu fu = Except.ok t)
    (hvals : t.wavelengths.values = v0 :: vs)
    (hs : strLower et ≠ "spectrum") (hr : strLower et ≠ "radiance") :
    (mean t.throughput.values > 3/2 →
      (read_element env f et wu fu).map
          (fun o => (o.lookup_table.values, headerGet o.header "notes"))
        = Except.ok (t.throughput.values.map (fun x => x / 100),
            some "Divided by 100.0 to convert from percentage"))
    ∧ (¬ mean t.throughput.values > 3/2 →
      (read_element env f et wu fu).map
          (fun o => (o.lookup_table.values, headerGet o.header "notes"))
        = Except.ok (t.throughput.values, headerGet t.header "notes")) := by
  rw [read_element_local env f et wu fu hlco hsvo]
  simp only [hparse]
  rw [localTail_eq t v0 vs hvals f (strLower et) wu fu]
  constructor
  · intro hm
    have hcond : strLower et ≠ "spectrum" ∧ strLower et ≠ "radiance"
        ∧ mean t.throughput.values > 3/2 := ⟨hs, hr, hm⟩
    rw [if_pos hcond, if_pos hcond]
    simp only [Except.map]
    rw [buildElement_lookup_of_element _ _ _ _ _ _ _ hs hr, buildElement_header,
      headerGet_headerSet_ne _ _ _ _ (by decide : ("notes" : String) ≠ "filename"),
      headerGet_headerSet_ne _ _ _ _ (by decide : ("notes" : String) ≠ "source"),
      headerGet_headerSet_self]
  · intro hm
    have hcond : ¬(strLower et ≠ "spectrum" ∧ strLower et ≠ "radiance"
        ∧ mean t.throughput.values > 3/2) := fun hc => hm hc.2.2
    rw [if_neg hcond, if_neg hcond]
    simp only [Except.map]
    rw [buildElement_lookup_of_element _ _ _ _ _ _ _ hs hr, buildElement_header,
      headerGet_headerSet_ne _ _ _ _ (by decide : ("notes" : String) ≠ "filename"),
      headerGet_headerSet_ne _ _ _ _ (by decide : ("notes" : String) ≠ "source")]

unseal Rat.mul Rat.inv Rat.add in
/-- Witness for the amended C2 at the local ASCII file of `envW`
(mean throughput 9/20, below the threshold: unscaled, no note added). -/
theorem c2_throughput_heuristic_witness :
    (read_element envW "local.txt" "element" SUnit.nm SUnit.throughput).map
        (fun o => (o.lookup_table.values, headerGet o.header "notes"))
      = Except.ok (([1/2, 2/5] : List ℚ), (none : Option String)) :=
  (c2_throughput_heuristic envW "local.txt" "element" SUnit.nm SUnit.throughput
    ⟨[], QList.mk SUnit.nm [300, 310], QList.mk SUnit.throughput [1/2, 2/5]⟩ 300 [310]
    (by decide) (by decide) (by decide) (by decide) (by decide) (by decide)).2 (by decide)

/-! ### Claim C3 -/

/-- `localParsed` on a FITS-suffixed identifier, with the resolved path
and primary flux column spelled out. -/
theorem localParsed_fits (env : Env) (f eT : String) (wu fu : SUnit)
    (hfits : strEndsWith (strLower f) "fits" = true ∨ strEndsWith (strLower f) "fit" = true) :
    localParsed env f eT wu fu
      = match env.readSpec (if env.pathExists (env.expandvars f) = true then env.expandvars f
            else env.pkgDataPath f) "lam"
            (if eT = "radiance" then "flux" else "trans") SUnit.nm fu with
        | Except.ok t => Except.ok t
        | Except.error PyErr.keyError =>
            env.readSpec (if env.pathExists (env.expandvars f) = true then env.expandvars f
              else env.pkgDataPath f) "lam" "flux" SUnit.micron fu
        | Except.error e => Except.error e := by
  unfold localParsed
  rw [if_pos hfits]

/-- `localParsed` on a non-FITS identifier: one ASCII read at the
resolved path with the caller-specified units. -/
theorem localParsed_ascii (env : Env) (f eT : String) (wu fu : SUnit)
    (hnf : ¬(strEndsWith (strLower f) "fits" = true ∨ strEndsWith (strLower f) "fit" = true)) :
    localParsed env f eT wu fu
      = env.readAsciiSpec (if env.pathExists (env.expandvars f) = true then env.expandvars f
          else env.pkgDataPath f) wu fu := by
  unfold localParsed
  rw [if_neg hnf]

/-- C3: for every local FITS read, the file is first read with columns
`lam` / `trans` (`flux` when the element type is radiance) in nm.  A
`KeyError` from that read — and nothing else — triggers exactly one
retry, with columns `lam` / `flux` in micron (the ESO-SM01 fallback
schema); a failing retry propagates its error; a non-`KeyError` failure
of the first read propagates without a retry; a successful first read is
used directly; and the result depends on the environment only through
path resolution and those two reads. -/
theorem c3_fits_retry (env : Env) (f et : String) (wu fu : SUnit)
    (hlco : ¬(strContains (strUpper f) "LCO_" = true ∧ strContains (strLower f) ".csv" = true))
    (hsvo : ¬ strContains (strLower f) "http://svo" = true)
    (hfits : strEndsWith (strLower f) "fits" = true ∨ strEndsWith (strLower f) "fit" = true) :
    (∀ e, e ≠ PyErr.keyError →
      env.readSpec (if env.pathExists (env.expandvars f) = true then env.expandvars f
          else env.pkgDataPath f) "lam"
          (if strLower et = "radiance" then "flux" else "trans") SUnit.nm fu
        = Except.error e →
      read_element env f et wu fu = Except.error e)
    ∧ (∀ e,
      env.readSpec (if env.pathExists (env.expandvars f) = true then env.expandvars f
          else env.pkgDataPath f) "lam"
          (if strLower et = "radiance" then "flux" else "trans") SUnit.nm fu
        = Except.error PyErr.keyError →
      env.readSpec (if env.pathExists (env.expandvars f) = true then env.expandvars f
          else env.pkgDataPath f) "lam" "flux" SUnit.micron fu
        = Except.error e →
      read_element env f et wu fu = Except.error e)
    ∧ (∀ t : SpecTable,
      env.readSpec (if env.pathExists (env.expandvars f) = true then env.expandvars f
          else env.pkgDataPath f) "lam"
          (if strLower et = "radiance" then "flux" else "trans") SUnit.nm fu
        = Except.error PyErr.keyError →
      env.readSpec (if env.pathExists (env.expandvars f) = true then env.expandvars f
          else env.pkgDataPath f) "lam" "flux" SUnit.micron fu
        = Except.ok t →
      read_element env f et wu fu = localTail t f (strLower et) wu fu)
    ∧ (∀ t : SpecTable,
      env.readSpec (if env.pathExists (env.expandvars f) = true then env.expandvars f
          else env.pkgDataPath f) "lam"
          (if strLower et = "radiance" then "flux" else "trans") SUnit.nm fu
        = Except.ok t →
      read_element env f et wu fu = localTail t f (strLower et) wu fu)
    ∧ (∀ env' : Env, env'.expandvars = env.expandvars → env'.pathExists = env.pathExists →
      env'.pkgDataPath = env.pkgDataPath →
      env'.readSpec (if env.pathExists (env.expandvars f) = true then env.expandvars f
          else env.pkgDataPath f) "lam"
          (if strLower et = "radiance" then "flux" else "trans") SUnit.nm fu
        = env.readSpec (if env.pathExists (env.expandvars f) = true then env.expandvars f
          else env.pkgDataPath f) "lam"
          (if strLower et = "radiance" then "flux" else "trans") SUnit.nm fu →
      env'.readSpec (if env.pathExists (env.expandvars f) = true then env.expandvars f
          else env.pkgDataPath f) "lam" "flux" SUnit.micron fu
        = env.readSpec (if env.pathExists (env.expandvars f) = true then env.expandvars f
          else env.pkgDataPath f) "lam" "flux" SUnit.micron fu →
      read_element env' f et wu fu = read_element env f et wu fu) := by
  refine ⟨?_, ?_, ?_, ?_, ?_⟩
  · intro e he hprim
    rw [read_element_local env f et wu fu hlco hsvo,
      localParsed_fits env f (strLower et) wu fu hfits, hprim]
    cases e with
    | keyError => exact absurd rfl he
    | indexError => rfl
    | osError m => rfl
    | otherError m => rfl
  · intro e hprim hfall
    rw [read_element_local env f et wu fu hlco hsvo,
      localParsed_fits env f (strLower et) wu fu hfits, hprim, hfall]
  · intro t hprim hfall
    rw [read_element_local env f et wu fu hlco hsvo,
      localParsed_fits env f (strLower et) wu fu hfits, hprim, hfall]
  · intro t hprim
    rw [read_element_local env f et wu fu hlco hsvo,
      localParsed_fits env f (strLower et) wu fu hfits, hprim]
  · intro env' hexp hpath hpkg h1 h2
    rw [read_element_local env' f et wu fu hlco hsvo,
      read_element_local env f et wu fu hlco hsvo,
      localParsed_fits env' f (strLower et) wu fu hfits,
      localParsed_fits env f (strLower et) wu fu hfits,
      hexp, hpath, hpkg, h1, h2]

unseal Rat.mul Rat.inv Rat.add in
/-- Witness for C3 at the FITS file of `envW`: the primary read raises
`KeyError`, the ESO-SM01 retry succeeds, and its table is the one used. -/
theorem c3_fits_retry_witness :
    read_element envW "sky.fits" "element" SUnit.nm SUnit.throughput
      = localTail ⟨[], QList.mk SUnit.micron [1/2, 3/5], QList.mk SUnit.throughput [1, 2]⟩
          "sky.fits" (strLower "element") SUnit.nm SUnit.throughput :=
  (c3_fits_retry envW "sky.fits" "element" SUnit.nm SUnit.throughput
    (by decide) (by decide) (by decide)).2.2.1
    ⟨[], QList.mk SUnit.micron [1/2, 3/5], QList.mk SUnit.throughput [1, 2]⟩
    (by decide) (by decide)

/-! ### Claim C4 -/

/-- C4: for every call with element type `"spectrum"` or `"radiance"`
(after the lowercasing applied on entry) whose `flux_units` was left at
the default `units.THROUGHPUT`, the returned object is a
`SourceSpectrum` whose flux values carry a photon-flux unit instead of
the throughput unit: the ESO radiance unit photon/(s·m²·µm) for
`"radiance"`, PHOTLAM otherwise. -/
theorem c4_flux_unit_default (env : Env) (f et : String) (wu : SUnit) (obj : SpectralObject)
    (het : strLower et = "spectrum" ∨ strLower et = "radiance")
    (hok : read_element env f et wu SUnit.throughput = Except.ok obj) :
    obj.variant = Variant.sourceSpectrum
    ∧ obj.lookup_table.unit
        = (if strLower et = "radiance" then SUnit.esoRadiance else SUnit.photlam) := by
  obtain ⟨h, w, t, hobj⟩ := read_element_ok_shape env f et wu SUnit.throughput obj hok
  subst hobj
  refine ⟨buildElement_variant_of_spectrum _ _ _ _ _ _ _ het, ?_⟩
  rw [buildElement_lookup_of_spectrum _ _ _ _ _ _ het]

unseal Rat.mul Rat.inv Rat.add in
/-- Witness for C4: a local spectrum read with default flux units yields
a `SourceSpectrum` in PHOTLAM. -/
theorem c4_flux_unit_default_witness :
    read_element envW "local.txt" "spectrum" SUnit.nm SUnit.throughput = Except.ok objSpectrumW
    ∧ objSpectrumW.variant = Variant.sourceSpectrum
    ∧ objSpectrumW.lookup_table.unit = SUnit.photlam := by
  have hok : read_element envW "local.txt" "spectrum" SUnit.nm SUnit.throughput
      = Except.ok objSpectrumW := by decide
  have h := c4_flux_unit_default envW "local.txt" "spectrum" SUnit.nm objSpectrumW
    (Or.inl (by decide)) hok
  exact ⟨hok, h.1, by rw [h.2]; decide⟩

/-! ### Claim C5 -/

/-- C5: source classification is first-match-wins and case-insensitive:
an identifier containing `LCO_` and `.csv` in any letter case takes the
packaged-CSV branch (even when it also matches the SVO rule, since the
LCO test comes first in the chain of `claimedSource`); otherwise one
containing `http://svo` in any letter case takes the remote SVO branch,
whose result is fully determined by the remote reader's answer at the
fixed angstrom/throughput units; every other identifier takes the
local-file branch.  The header's `source` entry names the branch taken,
and the classification depends only on the lowercased identifier. -/
theorem c5_classification (env : Env) (f et : String) (wu fu : SUnit)
    (obj : SpectralObject) (hok : read_element env f et wu fu = Except.ok obj) :
    headerGet obj.header "source" = some (claimedSource f)
    ∧ (∀ g : String, strLower g = strLower f → claimedSource g = claimedSource f)
    ∧ (claimedSource f = "LCO iLab format" →
        ∀ env' : Env, env'.expandvars = env.expandvars → env'.pkgDataPath = env.pkgDataPath →
          env'.readLcoCsv (env.pkgDataPath (env.expandvars f))
            = env.readLcoCsv (env.pkgDataPath (env.expandvars f)) →
          read_element env' f et wu fu = read_element env f et wu fu)
    ∧ (claimedSource f = "SVO filter service" →
        ∀ env' : Env,
          env'.readRemoteSpec f SUnit.angstrom SUnit.throughput
            = env.readRemoteSpec f SUnit.angstrom SUnit.throughput →
          read_element env' f et wu fu = read_element env f et wu fu) := by
  refine ⟨read_element_source_entry env f et wu fu obj hok, ?_, ?_, ?_⟩
  · intro g hg
    unfold claimedSource
    rw [hg]
  · intro hcl env' hexp hpkg hlco'
    by_cases h1 : strContains (strLower f) "lco_" = true ∧ strContains (strLower f) ".csv" = true
    · have h1c : strContains (strUpper f) "LCO_" = true ∧ strContains (strLower f) ".csv" = true := by
        rw [lco_cond_eq]
        exact h1
      unfold read_element
      rw [if_pos h1c, if_pos h1c, hexp, hpkg, hlco']
    · exfalso
      unfold claimedSource at hcl
      rw [if_neg h1] at hcl
      split at hcl <;> exact absurd hcl (by decide)
  · intro hcl env' hremote
    by_cases h1 : strContains (strLower f) "lco_" = true ∧ strContains (strLower f) ".csv" = true
    · exfalso
      unfold claimedSource at hcl
      rw [if_pos h1] at hcl
      exact absurd hcl (by decide)
    · by_cases h2 : strContains (strLower f) "http://svo" = true
      · have h1c : ¬(strContains (strUpper f) "LCO_" = true
            ∧ strContains (strLower f) ".csv" = true) := by
          rw [lco_cond_eq]
          exact h1
        unfold read_element
        rw [if_neg h1c, if_neg h1c, if_pos h2, if_pos h2, hremote]
      · exfalso
        unfold claimedSource at hcl
        rw [if_neg h1, if_neg h2] at hcl
        exact absurd hcl (by decide)

unseal Rat.mul Rat.inv Rat.add in
/-- Witness for C5 at the SVO identifier `"http://svo/x"`. -/
theorem c5_classification_witness :
    read_element envW "http://svo/x" "element" SUnit.nm SUnit.throughput = Except.ok objSvoW
    ∧ headerGet objSvoW.header "source" = some (claimedSource "http://svo/x") :=
  ⟨by decide,
   (c5_classification envW "http://svo/x" "element" SUnit.nm SUnit.throughput objSvoW
     (by decide)).1⟩

/-! ### Claim C6 -/

/-- C6: every successfully returned object's header carries a non-empty
`source` entry — one of the three branch labels, the one of the branch
taken — and a non-empty `filename` entry equal to the identifier, on
every path and for every element type. -/
theorem c6_header_provenance (env : Env) (f et : String) (wu fu : SUnit)
    (obj : SpectralObject) (hok : read_element env f et wu fu = Except.ok obj)
    (hf : f ≠ "") :
    (∃ s, headerGet obj.header "source" = some s ∧ s = claimedSource f
      ∧ (s = "LCO iLab format" ∨ s = "SVO filter service" ∨ s = "local file") ∧ s ≠ "")
    ∧ headerGet obj.header "filename" = some f ∧ f ≠ "" := by
  obtain ⟨h, w, t, hobj⟩ := read_element_ok_shape env f et wu fu obj hok
  refine ⟨⟨claimedSource f, read_element_source_entry env f et wu fu obj hok, rfl,
    claimedSource_cases f, ?_⟩, ?_, hf⟩
  · rcases claimedSource_cases f with hc | hc | hc <;> rw [hc] <;> decide
  · rw [hobj, buildElement_header, headerGet_headerSet_self]

unseal Rat.mul Rat.inv Rat.add in
/-- Witness for C6 at the local identifier `"local.txt"`. -/
theorem c6_header_provenance_witness :
    read_element envW "local.txt" "element" SUnit.nm SUnit.throughput = Except.ok objLocalW
    ∧ headerGet objLocalW.header "filename" = some "local.txt" :=
  ⟨by decide,
   (c6_header_provenance envW "local.txt" "element" SUnit.nm SUnit.throughput objLocalW
     (by decide) (by decide)).2.1⟩

/-! ### Claim C7 -/

unseal Rat.mul Rat.inv Rat.add in
/-- C7: for the two-row local ASCII file with content
`"300 0.5\n310 0.4\n"`, `read_element` with the default arguments
(`element_type = "element"`, `wave_units = nm`,
`flux_units = THROUGHPUT`) returns an object whose first wavelength is
300, still in nm (300 lies between 100 and 3000, so no reinterpretation),
and whose throughput values are `[0.5, 0.4]` unscaled, with no `notes`
entry (their mean 0.45 is below 1.5). -/
theorem c7_roundtrip :
    read_element envC7 "test.dat" "element" SUnit.nm SUnit.throughput = Except.ok objC7
    ∧ objC7.points = QList.mk SUnit.nm [300, 310]
    ∧ objC7.lookup_table = QList.mk SUnit.throughput [1/2, 2/5]
    ∧ headerGet objC7.header "notes" = none
    ∧ ¬ (mean [1/2, 2/5] > 3/2) := by decide

/-! ### Claim C8 -/

/-- C8: for every locally-classified identifier, the read happens at the
environment-variable-expanded identifier when a file exists there, and at
the package-data resolution of the identifier otherwise; a failing read
at the resolved path makes `read_element` return exactly that error — no
object, no partial result.  (For FITS identifiers, a non-`KeyError`
failure such as a missing-file `OSError` propagates from the first
read.) -/
theorem c8_path_resolution (env : Env) (f et : String) (wu fu : SUnit)
    (hlco : ¬(strContains (strUpper f) "LCO_" = true ∧ strContains (strLower f) ".csv" = true))
    (hsvo : ¬ strContains (strLower f) "http://svo" = true) :
    (env.pathExists (env.expandvars f) = true →
      ¬(strEndsWith (strLower f) "fits" = true ∨ strEndsWith (strLower f) "fit" = true) →
      ∀ e, env.readAsciiSpec (env.expandvars f) wu fu = Except.error e →
        read_element env f et wu fu = Except.error e)
    ∧ (env.pathExists (env.expandvars f) = false →
      ¬(strEndsWith (strLower f) "fits" = true ∨ strEndsWith (strLower f) "fit" = true) →
      ∀ e, env.readAsciiSpec (env.pkgDataPath f) wu fu = Except.error e →
        read_element env f et wu fu = Except.error e)
    ∧ ((strEndsWith (strLower f) "fits" = true ∨ strEndsWith (strLower f) "fit" = true) →
      ∀ m, env.readSpec (if env.pathExists (env.expandvars f) = true then env.expandvars f
            else env.pkgDataPath f) "lam"
            (if strLower et = "radiance" then "flux" else "trans") SUnit.nm fu
          = Except.error (PyErr.osError m) →
        read_element env f et wu fu = Except.error (PyErr.osError m)) := by
  refine ⟨?_, ?_, ?_⟩
  · intro hex hnf e herr
    rw [read_element_local env f et wu fu hlco hsvo,
      localParsed_ascii env f (strLower et) wu fu hnf, if_pos hex, herr]
  · intro hex hnf e herr
    rw [read_element_local env f et wu fu hlco hsvo,
      localParsed_ascii env f (strLower et) wu fu hnf, hex]
    rw [if_neg (by exact Bool.false_ne_true), herr]
  · intro hfits m herr
    rw [read_element_local env f et wu fu hlco hsvo,
      localParsed_fits env f (strLower et) wu fu hfits, herr]

/-- Witness for C8: with no file anywhere and an `OSError`-raising ASCII
reader, the error propagates from the package-data fallback path. -/
theorem c8_path_resolution_witness :
    read_element envErr "missing.txt" "element" SUnit.nm SUnit.throughput
      = Except.error (PyErr.osError "ENOENT") :=
  (c8_path_resolution envErr "missing.txt" "element" SUnit.nm SUnit.throughput
    (by decide) (by decide)).2.1 (by decide) (by decide)
    (PyErr.osError "ENOENT") (by decide)

/-! ### Claim C9 -/

/-- C9: `element_type` is lowercased on entry, so the comparison is
case-insensitive, and any element type whose lowercased form is none of
`"spectrum"`, `"radiance"`, `"spectral_element"` — including typos and
arbitrary text — is accepted without validation and yields the default
`BaseUnitlessSpectrum` variant. -/
theorem c9_element_type_default :
    (∀ (env : Env) (f et : String) (wu fu : SUnit),
      read_element env f et wu fu = read_element env f (strLower et) wu fu)
    ∧ (∀ (env : Env) (f et : String) (wu fu : SUnit) (obj : SpectralObject),
      strLower et ≠ "spectrum" → strLower et ≠ "radiance" → strLower et ≠ "spectral_element" →
      read_element env f et wu fu = Except.ok obj →
      obj.variant = Variant.baseUnitlessSpectrum) := by
  constructor
  · intro env f et wu fu
    unfold read_element
    rw [strLower_strLower]
  · intro env f et wu fu obj h1 h2 h3 hok
    obtain ⟨h, w, t, hobj⟩ := read_element_ok_shape env f et wu fu obj hok
    subst hobj
    exact buildElement_variant_of_other _ _ _ _ _ _ _ h1 h2 h3

unseal Rat.mul Rat.inv Rat.add in
/-- Witness for C9 at the undocumented element type `"Filter"`. -/
theorem c9_element_type_default_witness :
    read_element envW "local.txt" "Filter" SUnit.nm SUnit.throughput = Except.ok objLocalW
    ∧ objLocalW.variant = Variant.baseUnitlessSpectrum := by
  have hok : read_element envW "local.txt" "Filter" SUnit.nm SUnit.throughput
      = Except.ok objLocalW := by decide
  exact ⟨hok, c9_element_type_default.2 envW "local.txt" "Filter" SUnit.nm SUnit.throughput
    objLocalW (by decide) (by decide) (by decide) hok⟩

/-! ### Claim C10 -/

/-- C10: a locally-classified identifier is routed to the FITS parser
exactly when its lowercased form ends with `"fits"` or `"fit"` — no dot
required, so `"benefits"` and `"myprofit"` are FITS-routed: when the
suffix condition holds, the result is unchanged under any replacement of
the ASCII reader; when it fails, the result is unchanged under any
replacement of the FITS reader, and is determined by the ASCII reader's
answer at the resolved path with the caller-specified units. -/
theorem c10_fits_routing (env : Env) (f et : String) (wu fu : SUnit)
    (hlco : ¬(strContains (strUpper f) "LCO_" = true ∧ strContains (strLower f) ".csv" = true))
    (hsvo : ¬ strContains (strLower f) "http://svo" = true) :
    ((strEndsWith (strLower f) "fits" = true ∨ strEndsWith (strLower f) "fit" = true) →
      ∀ g, read_element (setAsciiReader env g) f et wu fu = read_element env f et wu fu)
    ∧ (¬(strEndsWith (strLower f) "fits" = true ∨ strEndsWith (strLower f) "fit" = true) →
      ∀ g, read_element (setFitsReader env g) f et wu fu = read_element env f et wu fu)
    ∧ (¬(strEndsWith (strLower f) "fits" = true ∨ strEndsWith (strLower f) "fit" = true) →
      ∀ env' : Env, env'.expandvars = env.expandvars → env'.pathExists = env.pathExists →
        env'.pkgDataPath = env.pkgDataPath →
        env'.readAsciiSpec (if env.pathExists (env.expandvars f) = true then env.expandvars f
            else env.pkgDataPath f) wu fu
          = env.readAsciiSpec (if env.pathExists (env.expandvars f) = true then env.expandvars f
            else env.pkgDataPath f) wu fu →
        read_element env' f et wu fu = read_element env f et wu fu)
    ∧ (strEndsWith (strLower "benefits") "fits" = true
      ∧ strEndsWith (strLower "myprofit") "fit" = true
      ∧ strEndsWith (strLower "curve.txt") "fits" = false
      ∧ strEndsWith (strLower "curve.txt") "fit" = false) := by
  refine ⟨?_, ?_, ?_, by decide⟩
  · intro hfits g
    rw [read_element_local (setAsciiReader env g) f et wu fu hlco hsvo,
      read_element_local env f et wu fu hlco hsvo,
      localParsed_fits (setAsciiReader env g) f (strLower et) wu fu hfits,
      localParsed_fits env f (strLower et) wu fu hfits]
    rfl
  · intro hnf g
    rw [read_element_local (setFitsReader env g) f et wu fu hlco hsvo,
      read_element_local env f et wu fu hlco hsvo,
      localParsed_ascii (setFitsReader env g) f (strLower et) wu fu hnf,
      localParsed_ascii env f (strLower et) wu fu hnf]
    rfl
  · intro hnf env' hexp hpath hpkg hag
    rw [read_element_local env' f et wu fu hlco hsvo,
      read_element_local env f et wu fu hlco hsvo,
      localParsed_ascii env' f (strLower et) wu fu hnf,
      localParsed_ascii env f (strLower et) wu fu hnf,
      hexp, hpath, hpkg, hag]

/-- Witness for C10 at the extensionless FITS-suffixed identifier
`"benefits"`: the ASCII reader is irrelevant to the result. -/
theorem c10_fits_routing_witness :
    read_element (setAsciiReader envW (fun _ _ _ => Except.error (PyErr.osError "x")))
        "benefits" "element" SUnit.nm SUnit.throughput
      = read_element envW "benefits" "element" SUnit.nm SUnit.throughput :=
  (c10_fits_routing envW "benefits" "element" SUnit.nm SUnit.throughput
    (by decide) (by decide)).1 (by decide) (fun _ _ _ => Except.error (PyErr.osError "x"))

end LinccExample
